import Mathlib

/-!
A shallow embedding of the generator protocol of libfringe
(src/src/generator.rs), together with theorems about its behaviour.

The generator body is represented as a state machine (`Body`): the Rust
closure `f : FnOnce(&mut Yielder<Input, Output>, Input)` is modelled by a
local state type `σ`, an initial state, and a step function that consumes
one input and either suspends with an output (a `Yielder::suspend` call),
returns normally, or panics.  A context switch from `Generator::resume`
into the generator stack (`StackPointer::swap`) is modelled by
`switch_to_generator`, which runs the paused generator-side execution with
the delivered input until it swaps back to the caller.
-/

namespace LibFringe

/-- Generator state, from `enum State` in src/src/generator.rs:
`Runnable` is the initial state; `Unavailable` is the state after the
generator function has returned or panicked. -/
inductive State where
  | Runnable
  | Unavailable
  deriving DecidableEq, Repr

/-- One observable step of the generator body: given the body's local state
and the input delivered across the switch, the body either suspends with an
output value and a successor local state (a `Yielder::suspend` call),
returns normally, or panics. -/
inductive BodyOut (σ I O : Type) where
  | yield (out : O) (next : σ)
  | done
  | panic

/-- The generator body `f`, represented as a state machine over a local
state type `σ`: `init` is the state in which the body waits for its first
input, `step` consumes one input and runs the body to its next suspension
point, return, or panic. -/
structure Body (σ I O : Type) where
  init : σ
  step : σ → I → BodyOut σ I O

/-- Where the generator-side execution (the value denoted by the
`stack_ptr` field of `Generator`) is paused:
`running s` — inside `suspend_bare` within the body (or at the first-entry
handshake), with body-local state `s`;
`terminated` — inside `suspend_bare(None)` in the termination loop of
`generator_wrapper`, after the body returned;
`dead` — the generator stack was unwound by a panic of the body. -/
inductive Paused (σ : Type) where
  | running (s : σ)
  | terminated
  | dead
  deriving DecidableEq, Repr

/-- What the generator-side execution sends back across a switch: a
pointer to an `Option<Output>` read by `resume` (`value`), or a panic
unwinding across the stack boundary (`panicked`). -/
inductive SwapOut (O : Type) where
  | value (v : Option O)
  | panicked

/-- `struct Generator` from src/src/generator.rs.  The `stack_ptr` field
is represented by `paused` together with `body`: the paused generator-side
execution it points to.  The `stack_id` field (debug registry) has no
observable behaviour at this level and is omitted. -/
structure Generator (σ I O S : Type) where
  state : State
  stk : S
  body : Body σ I O
  paused : Paused σ

/-- Models `StackPointer::swap` from `resume` into the generator stack:
runs the paused generator-side execution (`generator_wrapper`, i.e. the
body and, after it returns, the `loop { yielder.suspend_bare(None); }`
termination loop) with the delivered input, until it swaps back to the
caller.  Returns the `Option<Output>` the generator sends (or a panic)
and the new paused generator-side execution.  A `terminated` execution
performs one more iteration of the termination loop: it sends `none` and
stays `terminated`.  A `dead` execution is never switched into by
`resume`, because the state is `Unavailable` from the moment of the
panic; the `dead` arm is a totalisation only. -/
def switch_to_generator {σ I O : Type} (b : Body σ I O) :
    Paused σ → I → SwapOut O × Paused σ
  | Paused.running s, i =>
    match b.step s i with
    | BodyOut.yield o s2 => (SwapOut.value (some o), Paused.running s2)
    | BodyOut.done => (SwapOut.value none, Paused.terminated)
    | BodyOut.panic => (SwapOut.panicked, Paused.dead)
  | Paused.terminated, _ => (SwapOut.value none, Paused.terminated)
  | Paused.dead, _ => (SwapOut.value none, Paused.dead)

/-- The outcome of a `resume` call: a normal return of `Option<Output>`,
or a panic of the generator body propagating through `resume`. -/
inductive ResumeOut (O : Type) where
  | ret (val : Option O)
  | panicked
  deriving DecidableEq, Repr

/-- The first statement of the `Runnable` arm of `resume`:
`self.state = State::Unavailable;`, executed before the stack switch. -/
def resume_pre {σ I O S : Type} (g : Generator σ I O S) : Generator σ I O S :=
  { g with state := State.Unavailable }

/-- `Generator::resume` from src/src/generator.rs.  In the `Runnable` arm
the state is set to `Unavailable` (`resume_pre`) before the switch; then
the generator is switched to and the yielded `Option<Output>` is read; the
state is set back to `Runnable` exactly when the value is `Some`.  If the
body panics, the unwinding propagates out of `resume` and the statements
after the switch do not run, so the state stays `Unavailable`.  In the
`Unavailable` arm, `None` is returned immediately with no switch. -/
def resume {σ I O S : Type} (g : Generator σ I O S) (input : I) :
    ResumeOut O × Generator σ I O S :=
  match g.state with
  | State.Runnable =>
    let g1 := resume_pre g
    let sw := switch_to_generator g1.body g1.paused input
    match sw.1 with
    | SwapOut.value val =>
      let g2 := { g1 with paused := sw.2 }
      let g3 := if val.isSome then { g2 with state := State.Runnable } else g2
      (ResumeOut.ret val, g3)
    | SwapOut.panicked =>
      (ResumeOut.panicked, { g1 with paused := sw.2 })
  | State.Unavailable => (ResumeOut.ret none, g)

/-- What happens to the `input` argument of `resume` on the caller side. -/
inductive InputDisposal where
  | movedToGenerator
  | droppedByCaller
  deriving DecidableEq, Repr

/-- From `Generator::resume`: in the `Runnable` arm the input is
transferred to the generator by pointer and `mem::forget(input)` suppresses
its destructor on the caller side; in the `Unavailable` arm `resume`
returns without touching `input`, so it is dropped normally by the
caller. -/
def resume_input_disposal {σ I O S : Type} (g : Generator σ I O S) : InputDisposal :=
  match g.state with
  | State.Runnable => InputDisposal.movedToGenerator
  | State.Unavailable => InputDisposal.droppedByCaller

/-- `Generator::unwrap` from src/src/generator.rs: panics (modelled as
`Except.error ()`) when the generator is still `Runnable`, and returns the
underlying stack when it is `Unavailable`. -/
def unwrap {σ I O S : Type} (g : Generator σ I O S) : Except Unit S :=
  match g.state with
  | State.Runnable => Except.error ()
  | State.Unavailable => Except.ok g.stk

/-- Modelled from the spec: the `Stack` trait (module `stack` is not under
src/) — a memory region usable as a stack, exposing `base` and `limit`
addresses. -/
class Stack (S : Type) where
  base : S → Nat
  limit : S → Nat

/-- Modelled from the spec: the `GuardedStack` marker trait (module
`stack` is not under src/) — a `Stack` whose low end is protected by a
guard page. -/
class GuardedStack (S : Type) extends Stack S

/-- `Generator::unsafe_new` from src/src/generator.rs: registers the
stack, initialises it so the first switch lands in `generator_wrapper`,
performs the handshake swap that moves the closure environment onto the
generator stack, and returns a generator in state `Runnable` whose paused
execution waits for the first input. -/
def new_unchecked {σ I O S : Type} [Stack S] (stk : S) (b : Body σ I O) :
    Generator σ I O S :=
  { state := State.Runnable, stk := stk, body := b,
    paused := Paused.running b.init }

/-- `Generator::new` from src/src/generator.rs: exactly `unsafe_new`, with
the additional `GuardedStack` bound on the stack. -/
def new {σ I O S : Type} [GuardedStack S] (stk : S) (b : Body σ I O) :
    Generator σ I O S :=
  new_unchecked stk b

/-- The `Iterator` implementation for `Generator<(), Output, Stack>` from
src/src/generator.rs: `next()` is `self.resume(())`. -/
def Generator.next {σ O S : Type} (g : Generator σ Unit O S) :
    ResumeOut O × Generator σ Unit O S :=
  resume g ()

/-- Folds a sequence of `resume` calls over a list of inputs, collecting
the outcomes and the final generator. -/
def resumes {σ I O S : Type} :
    Generator σ I O S → List I → List (ResumeOut O) × Generator σ I O S
  | g, [] => ([], g)
  | g, i :: is =>
    let p := resume g i
    let q := resumes p.2 is
    (p.1 :: q.1, q.2)

/-- The echo body: `loop { input = yielder.suspend(input) }` — it
immediately re-yields every input it receives and never returns. -/
def echoBody (I : Type) : Body Unit I I :=
  { init := (), step := fun _ i => BodyOut.yield i () }

/-- A body that returns immediately without yielding: `{}`. -/
def immediateReturnBody (I O : Type) : Body Unit I O :=
  { init := (), step := fun _ _ => BodyOut.done }

/-- Modelled from the spec: `StackPointer` (module `stack_pointer` is not
under src/) — an opaque token standing for the saved top of a paused
stack. -/
abbrev StackPointer : Type := Nat

/-- `struct Yielder` from src/src/generator.rs: holds a cell with the
caller's most recently saved stack pointer. -/
structure Yielder (I O : Type) where
  stack_ptr : StackPointer

/-- `Yielder::suspend_bare` from src/src/generator.rs, with the caller
side of the switch abstracted as `swapToCaller` (what
`StackPointer::swap` to the saved caller stack pointer returns: the next
input and the caller's newly saved stack pointer).  The yielded value is
handed to the caller, and the cell is updated with the caller's new stack
pointer. -/
def suspend_bare {I O : Type}
    (swapToCaller : Option O → StackPointer → I × StackPointer)
    (y : Yielder I O) (val : Option O) : I × Yielder I O :=
  let r := swapToCaller val y.stack_ptr
  (r.1, { stack_ptr := r.2 })

/-- `Yielder::suspend` from src/src/generator.rs:
`self.suspend_bare(Some(item))`. -/
def suspend {I O : Type}
    (swapToCaller : Option O → StackPointer → I × StackPointer)
    (y : Yielder I O) (item : O) : I × Yielder I O :=
  suspend_bare swapToCaller y (some item)

/-- The possible actions of `generator_wrapper` after the body has
returned. -/
inductive WrapperAct (O : Type) where
  | suspendBareAct (v : Option O)
  | abortAct
  deriving DecidableEq, Repr

/-- From `generator_wrapper` in src/src/generator.rs: after the body `f`
returns, the wrapper runs `loop { yielder.suspend_bare(None); }`.  The
action taken at the `k`-th iteration of that loop — in particular, the
action taken right after `suspend_bare` returns inside the loop — is
always another `suspend_bare(None)`; the wrapper contains no abort. -/
def terminated_loop_act (O : Type) (_k : Nat) : WrapperAct O :=
  WrapperAct.suspendBareAct none

instance : Stack Unit := { base := fun _ => 4096, limit := fun _ => 0 }

instance : GuardedStack Unit := {}

/-- A concrete echo generator over `Nat`, used to instantiate theorems. -/
def exampleEcho : Generator Unit Nat Nat Unit :=
  new_unchecked () (echoBody Nat)

/-- A concrete immediately-returning generator over `Nat`, used to
instantiate theorems. -/
def exampleDone : Generator Unit Nat Nat Unit :=
  new_unchecked () (immediateReturnBody Nat Nat)

/-- A concrete immediately-returning generator with `Input = Unit`, used
to instantiate theorems. -/
def exampleDoneU : Generator Unit Unit Nat Unit :=
  new_unchecked () (immediateReturnBody Unit Nat)

/-- Normal form of `resume` on a `Runnable` generator. -/
theorem resume_runnable {σ I O S : Type} (st : S) (b : Body σ I O)
    (p : Paused σ) (i : I) :
    resume (Generator.mk State.Runnable st b p) i =
      match switch_to_generator b p i with
      | (SwapOut.value val, p2) =>
        (ResumeOut.ret val,
          Generator.mk (if val.isSome then State.Runnable else State.Unavailable)
            st b p2)
      | (SwapOut.panicked, p2) =>
        (ResumeOut.panicked, Generator.mk State.Unavailable st b p2) := by
  rcases hsw : switch_to_generator b p i with ⟨sw1, p2⟩
  cases sw1 with
  | value val => cases val <;> simp [resume, resume_pre, hsw]
  | panicked => simp [resume, resume_pre, hsw]

/-- `resume` on an `Unavailable` generator returns `none` and leaves the
generator unchanged. -/
theorem resume_unavailable {σ I O S : Type} (g : Generator σ I O S)
    (h : g.state = State.Unavailable) (i : I) :
    resume g i = (ResumeOut.ret none, g) := by
  obtain ⟨st, stk, b, p⟩ := g
  cases st
  · exact State.noConfusion h
  · rfl

/-- `resume` on a generator paused in the termination loop returns `none`
and keeps the paused execution in the termination loop. -/
theorem resume_terminated_step {σ I O S : Type} (g : Generator σ I O S)
    (h : g.paused = Paused.terminated) (i : I) :
    (resume g i).1 = ResumeOut.ret none ∧
    (resume g i).2.paused = Paused.terminated := by
  obtain ⟨st, stk, b, p⟩ := g
  cases p with
  | running s => exact Paused.noConfusion h
  | terminated => cases st <;> exact ⟨rfl, rfl⟩
  | dead => exact Paused.noConfusion h

/-- Whenever `resume` returns `none`, the generator is left
`Unavailable`. -/
theorem resume_none_state {σ I O S : Type} (g : Generator σ I O S) (i : I)
    (h : (resume g i).1 = ResumeOut.ret none) :
    (resume g i).2.state = State.Unavailable := by
  obtain ⟨st, stk, b, p⟩ := g
  cases st with
  | Runnable =>
    rw [resume_runnable] at h ⊢
    rcases hsw : switch_to_generator b p i with ⟨sw1, p2⟩
    rw [hsw] at h
    cases sw1 with
    | value val =>
      cases val with
      | none => rfl
      | some o => exact Option.noConfusion (ResumeOut.ret.inj h)
    | panicked => rfl
  | Unavailable => rfl

/-- Unfolding of `resumes` on a nonempty input list. -/
theorem resumes_cons {σ I O S : Type} (g : Generator σ I O S) (i : I)
    (is : List I) :
    resumes g (i :: is) =
      ((resume g i).1 :: (resumes (resume g i).2 is).1,
        (resumes (resume g i).2 is).2) := rfl

/-- One `resume` of the echo generator returns the input and leaves the
generator in its initial configuration. -/
theorem resume_echo {I S : Type} [Stack S] (stk : S) (u : I) :
    resume (new_unchecked stk (echoBody I)) u =
      (ResumeOut.ret (some u), new_unchecked stk (echoBody I)) := rfl

/-- Claim C1: for every generator whose body function has returned (its
paused generator-side execution is in the termination loop), every
subsequent call to `resume` — the first one after the return and all the
ones after it — returns `none`, and the execution stays in the
termination loop. -/
theorem c1_resume_after_return_always_none {σ I O S : Type}
    (g : Generator σ I O S) (h : g.paused = Paused.terminated)
    (is : List I) :
    (resumes g is).1 = is.map (fun _ => ResumeOut.ret none) ∧
    (resumes g is).2.paused = Paused.terminated := by
  induction is generalizing g with
  | nil => exact ⟨rfl, h⟩
  | cons i is ih =>
    have h1 := resume_terminated_step g h i
    have h2 := ih (resume g i).2 h1.2
    rw [resumes_cons]
    exact ⟨by rw [List.map_cons, h1.1, h2.1], h2.2⟩

/-- Claim C1, witness: resuming the immediately-returning generator once
terminates it; the three subsequent resumes all return `none`. -/
theorem c1_witness :
    (resume exampleDone 0).2.paused = Paused.terminated ∧
    (resumes (resume exampleDone 0).2 [1, 2, 3]).1 =
      [ResumeOut.ret none, ResumeOut.ret none, ResumeOut.ret none] := by
  have h := c1_resume_after_return_always_none (resume exampleDone 0).2 rfl
    [1, 2, 3]
  exact ⟨rfl, h.1⟩

/-- Claim C2: on a `Runnable` generator, `resume` sets the state to
`Unavailable` before the stack switch (`resume_pre` is the statement
executed before the switch); after the switch the state is `Runnable` iff
the received value is `Some`; if the body returned (`none` received) or
panicked, the state remains `Unavailable`. -/
theorem c2_resume_state_transition {σ I O S : Type}
    (g : Generator σ I O S) (i : I) (h : g.state = State.Runnable) :
    (resume_pre g).state = State.Unavailable ∧
    ((resume g i).2.state = State.Runnable ↔
      ∃ v, (resume g i).1 = ResumeOut.ret (some v)) ∧
    ((resume g i).1 = ResumeOut.ret none →
      (resume g i).2.state = State.Unavailable) ∧
    ((resume g i).1 = ResumeOut.panicked →
      (resume g i).2.state = State.Unavailable) := by
  obtain ⟨st, stk, b, p⟩ := g
  cases st with
  | Unavailable => exact State.noConfusion h
  | Runnable =>
    refine ⟨rfl, ?_⟩
    rw [resume_runnable]
    rcases hsw : switch_to_generator b p i with ⟨sw1, p2⟩
    cases sw1 with
    | value val =>
      cases val with
      | none => simp
      | some o => simp
    | panicked => simp

/-- Claim C2, witness: instantiated on the echo generator at input 5. -/
theorem c2_witness :
    (resume_pre exampleEcho).state = State.Unavailable ∧
    ((resume exampleEcho 5).2.state = State.Runnable ↔
      ∃ v, (resume exampleEcho 5).1 = ResumeOut.ret (some v)) ∧
    ((resume exampleEcho 5).1 = ResumeOut.ret none →
      (resume exampleEcho 5).2.state = State.Unavailable) ∧
    ((resume exampleEcho 5).1 = ResumeOut.panicked →
      (resume exampleEcho 5).2.state = State.Unavailable) :=
  c2_resume_state_transition exampleEcho 5 rfl

/-- Claim C3: when the body of a `Runnable` generator, given exactly the
input `u` that was passed to `resume`, suspends with the output `v`, that
`resume(u)` call returns exactly `Some v`, and the generator is left
`Runnable`, paused at the continuation of that suspend.  The transferred
values are passed through unchanged in both directions (the embedding's
rendering of bit-for-bit move semantics). -/
theorem c3_resume_transfers_values {σ I O S : Type}
    (g : Generator σ I O S) (s : σ) (u : I) (v : O) (s2 : σ)
    (hst : g.state = State.Runnable) (hp : g.paused = Paused.running s)
    (hstep : g.body.step s u = BodyOut.yield v s2) :
    resume g u =
      (ResumeOut.ret (some v),
        { g with state := State.Runnable, paused := Paused.running s2 }) := by
  obtain ⟨st, stk, b, p⟩ := g
  cases st with
  | Unavailable => exact State.noConfusion hst
  | Runnable =>
    cases p with
    | terminated => exact Paused.noConfusion hp
    | dead => exact Paused.noConfusion hp
    | running s0 =>
      have hs : s0 = s := Paused.running.inj hp
      subst hs
      rw [resume_runnable]
      have hsw : switch_to_generator b (Paused.running s0) u =
          (SwapOut.value (some v), Paused.running s2) := by
        simp only [switch_to_generator]
        rw [hstep]
      rw [hsw]
      rfl

/-- Claim C3, witness: the echo generator resumed with 5 returns
`Some 5`. -/
theorem c3_witness :
    resume exampleEcho 5 =
      (ResumeOut.ret (some 5),
        { exampleEcho with state := State.Runnable,
                           paused := Paused.running () }) :=
  c3_resume_transfers_values exampleEcho () 5 5 () rfl rfl rfl

/-- Claim C4, counterexample: in the termination loop of
`generator_wrapper`, the action taken when `suspend_bare` returns (at any
iteration, here iteration 1) is another `suspend_bare(None)` and not an
abort — the wrapper code `loop { yielder.suspend_bare(None); }` contains
no abort, so the claim that the program aborts when `suspend_bare`
returns inside the terminated loop is false. -/
theorem c4_counterexample :
    terminated_loop_act Nat 1 = WrapperAct.suspendBareAct none ∧
    terminated_loop_act Nat 1 ≠ WrapperAct.abortAct :=
  ⟨rfl, by decide⟩

/-- Claim C4 (amended): after the body function returns, the entry
trampoline enters the infinite loop `loop { yielder.suspend_bare(None) }`,
so every switch into the terminated generator delivers `none` (and every
subsequent `resume` returns `none`); if `suspend_bare` returns inside
that loop, the wrapper calls `suspend_bare(None)` again — it re-suspends
with `none` rather than aborting. -/
theorem c4_terminated_loop_behaviour {σ I O S : Type}
    (g : Generator σ I O S) (h : g.paused = Paused.terminated)
    (i : I) (k : Nat) :
    switch_to_generator g.body g.paused i =
      (SwapOut.value none, Paused.terminated) ∧
    (resume g i).1 = ResumeOut.ret none ∧
    terminated_loop_act O k = WrapperAct.suspendBareAct none := by
  refine ⟨?_, (resume_terminated_step g h i).1, rfl⟩
  rw [h]
  rfl

/-- Claim C4, witness: instantiated on the terminated immediate-return
generator. -/
theorem c4_witness :
    switch_to_generator (resume exampleDone 7).2.body
        (resume exampleDone 7).2.paused 5 =
      (SwapOut.value none, Paused.terminated) ∧
    (resume (resume exampleDone 7).2 5).1 = ResumeOut.ret none ∧
    terminated_loop_act Nat 0 = WrapperAct.suspendBareAct none :=
  c4_terminated_loop_behaviour (resume exampleDone 7).2 rfl 5 0

/-- Claim C5: `unwrap` returns the underlying stack when the state is
`Unavailable`, and panics (modelled as `Except.error ()`) when the state
is still `Runnable`; after a `resume` that returned `none`, `unwrap`
succeeds. -/
theorem c5_unwrap_spec {σ I O S : Type} (g : Generator σ I O S) :
    (g.state = State.Unavailable → unwrap g = Except.ok g.stk) ∧
    (g.state = State.Runnable → unwrap g = Except.error ()) ∧
    (∀ (i : I) (g2 : Generator σ I O S),
      resume g i = (ResumeOut.ret none, g2) →
      unwrap g2 = Except.ok g2.stk) := by
  refine ⟨?_, ?_, ?_⟩
  · intro h
    obtain ⟨st, stk, b, p⟩ := g
    cases st
    · exact State.noConfusion h
    · rfl
  · intro h
    obtain ⟨st, stk, b, p⟩ := g
    cases st
    · rfl
    · exact State.noConfusion h
  · intro i g2 hr
    have h1 : (resume g i).1 = ResumeOut.ret none := by rw [hr]
    have h2 := resume_none_state g i h1
    rw [hr] at h2
    obtain ⟨st2, stk2, b2, p2⟩ := g2
    cases st2
    · exact State.noConfusion h2
    · rfl

/-- Claim C5, witness: `unwrap` fails on the fresh (Runnable) echo
generator and succeeds on the immediate-return generator after the
`resume` that returned `none`. -/
theorem c5_witness :
    unwrap exampleEcho = Except.error () ∧
    unwrap (resume exampleDone 4).2 = Except.ok () := by
  constructor
  · exact (c5_unwrap_spec exampleEcho).2.1 rfl
  · exact (c5_unwrap_spec exampleDone).2.2 4 (resume exampleDone 4).2 rfl

/-- Claim C6: a generator whose body immediately re-yields each received
input acts as the identity on the caller's sequence: resuming with
inputs `u1, u2, ...` returns `Some u1, Some u2, ...`. -/
theorem c6_echo_identity {I S : Type} [Stack S] (stk : S) (us : List I) :
    (resumes (new_unchecked stk (echoBody I)) us).1 =
      us.map (fun u => ResumeOut.ret (some u)) := by
  induction us with
  | nil => rfl
  | cons u us ih =>
    rw [resumes_cons, resume_echo]
    show ResumeOut.ret (some u) ::
        (resumes (new_unchecked stk (echoBody I)) us).1 = _
    rw [List.map_cons, ih]

/-- Claim C6, witness: the echo generator maps `[1, 2, 3]` to
`[Some 1, Some 2, Some 3]`. -/
theorem c6_witness :
    (resumes (new_unchecked () (echoBody Nat)) [1, 2, 3]).1 =
      [ResumeOut.ret (some 1), ResumeOut.ret (some 2),
        ResumeOut.ret (some 3)] :=
  c6_echo_identity () [1, 2, 3]

/-- Claim C7: for `Input = Unit`, the iterator method `next()` equals
`resume(())`: it is the same computation, so it returns the same
`Option<Output>` and leaves the generator in the same state. -/
theorem c7_next_eq_resume {σ O S : Type} (g : Generator σ Unit O S) :
    g.next = resume g () ∧
    g.next.1 = (resume g ()).1 ∧
    g.next.2.state = (resume g ()).2.state :=
  ⟨rfl, rfl, rfl⟩

/-- Claim C7, witness: instantiated on the unit-input immediate-return
generator. -/
theorem c7_witness :
    exampleDoneU.next = resume exampleDoneU () ∧
    exampleDoneU.next.1 = (resume exampleDoneU ()).1 ∧
    exampleDoneU.next.2.state = (resume exampleDoneU ()).2.state :=
  c7_next_eq_resume exampleDoneU

/-- Claim C8: `suspend item` is exactly `suspend_bare (some item)`: the
same input is returned and the stored caller stack pointer is updated in
the same way. -/
theorem c8_suspend_eq_suspend_bare {I O : Type}
    (swapToCaller : Option O → StackPointer → I × StackPointer)
    (y : Yielder I O) (item : O) :
    suspend swapToCaller y item = suspend_bare swapToCaller y (some item) ∧
    (suspend swapToCaller y item).1 =
      (suspend_bare swapToCaller y (some item)).1 ∧
    (suspend swapToCaller y item).2.stack_ptr =
      (suspend_bare swapToCaller y (some item)).2.stack_ptr :=
  ⟨rfl, rfl, rfl⟩

/-- Claim C8, witness: instantiated at a concrete caller-swap function,
yielder, and item. -/
theorem c8_witness :
    suspend (fun v sp => (v.getD 0 + sp, sp + 1)) ⟨0⟩ 5 =
      suspend_bare (fun v sp => (v.getD 0 + sp, sp + 1)) ⟨0⟩ (some 5) ∧
    (suspend (fun v sp => (v.getD 0 + sp, sp + 1)) ⟨0⟩ 5).1 =
      (suspend_bare (fun v sp => (v.getD 0 + sp, sp + 1)) ⟨0⟩ (some 5)).1 ∧
    (suspend (fun v sp => (v.getD 0 + sp, sp + 1)) ⟨0⟩ 5).2.stack_ptr =
      (suspend_bare (fun v sp => (v.getD 0 + sp, sp + 1)) ⟨0⟩
        (some 5)).2.stack_ptr :=
  c8_suspend_eq_suspend_bare (fun v sp => (v.getD 0 + sp, sp + 1)) ⟨0⟩ 5

/-- Claim C9: `resume` on an `Unavailable` generator returns `none`
without performing any switch: the generator (its state, stack and paused
stack-pointer) is left entirely unchanged, and the input is dropped
normally on the caller side (it is not forgotten or transferred).
`Unavailable` is absorbing: no sequence of `resume` calls (and hence of
`next` calls, which are `resume` calls) changes the generator. -/
theorem c9_unavailable_frame {σ I O S : Type} (g : Generator σ I O S)
    (h : g.state = State.Unavailable) :
    (∀ i : I, resume g i = (ResumeOut.ret none, g)) ∧
    resume_input_disposal g = InputDisposal.droppedByCaller ∧
    (∀ is : List I, (resumes g is).2 = g ∧
      (resumes g is).1 = is.map (fun _ => ResumeOut.ret none)) := by
  refine ⟨fun i => resume_unavailable g h i, ?_, ?_⟩
  · obtain ⟨st, stk, b, p⟩ := g
    cases st
    · exact State.noConfusion h
    · rfl
  · intro is
    induction is with
    | nil => exact ⟨rfl, rfl⟩
    | cons i is ih =>
      rw [resumes_cons, resume_unavailable g h]
      exact ⟨ih.1, by rw [List.map_cons, ih.2]⟩

/-- Claim C9, witness: instantiated on the terminated immediate-return
generator at input 42 and input sequence `[1, 2]`. -/
theorem c9_witness :
    resume (resume exampleDone 9).2 42 =
      (ResumeOut.ret none, (resume exampleDone 9).2) ∧
    resume_input_disposal (resume exampleDone 9).2 =
      InputDisposal.droppedByCaller ∧
    (resumes (resume exampleDone 9).2 [1, 2]).2 =
      (resume exampleDone 9).2 := by
  have h := c9_unavailable_frame (resume exampleDone 9).2 rfl
  exact ⟨h.1 42, h.2.1, (h.2.2 [1, 2]).1⟩

/-- Claim C10: `new` is exactly `unsafe_new` (here `new_unchecked`) with
the additional `GuardedStack` bound, and both produce a generator whose
initial state is `Runnable`. -/
theorem c10_new_eq_new_unchecked {σ I O S : Type} [GuardedStack S]
    (stk : S) (b : Body σ I O) :
    new stk b = new_unchecked stk b ∧
    (new stk b).state = State.Runnable ∧
    (new_unchecked stk b).state = State.Runnable :=
  ⟨rfl, rfl, rfl⟩

/-- Claim C10, witness: instantiated at the unit stack and the echo
body. -/
theorem c10_witness :
    new () (echoBody Nat) = new_unchecked () (echoBody Nat) ∧
    (new () (echoBody Nat)).state = State.Runnable ∧
    (new_unchecked () (echoBody Nat)).state = State.Runnable :=
  c10_new_eq_new_unchecked () (echoBody Nat)

end LibFringe
